import Mathlib

/-!
Shallow embedding of `lc_flask_routes/route.py` (libcommon/flask-routes-py).

The module defines two mixins:

* `BaseRouteMixin` with `register_route` (registers every entry of the class
  attribute `ROUTE_MAP` with a Flask app, guarding against a reserved
  `"view_func"` options key, catching every per-entry exception and logging a
  warning) and `handle_request` (dispatches the incoming request to the class
  attribute named after the lower-cased HTTP method, or aborts with 405);
* `BaseRouteWithParserMixin`, which, when a parser is configured and the
  method is GET, POST or PUT, runs the parser first, maps a `TypeError` to an
  HTTP 415 abort, maps a `RuntimeError` whose first argument is a string
  starting with `"Failed to parse provided arguments"` to an HTTP 400 abort,
  re-raises any other `RuntimeError`, and on success merges the parsed
  arguments into the URL-derived keyword arguments (parsed values win) before
  delegating to the base dispatcher.

Flask-side effects are modelled explicitly: `flask.abort` becomes a dedicated
result constructor, the app routing table and the warning log become fields of
an explicit registration state, and `flask.Flask.add_url_rule` (which may
raise for reasons outside this layer, e.g. endpoint conflicts) is a parameter
returning `Except`.
-/

namespace FlaskRoutes

/-- Keyword-argument mappings (Python `dict`s such as `route_kwargs` and the
parsed-argument namespace) are modelled as ordered association lists over
`String` keys, which preserves Python dict insertion order. -/
abbrev Kwargs (V : Type) : Type := List (String × V)

/-- First-match lookup in a keyword mapping: the observation Python `d[k]`
makes on a dict. -/
def lookupKey {V : Type} : Kwargs V → String → Option V
  | [], _ => none
  | (k₁, v₁) :: rest, k => if k₁ = k then some v₁ else lookupKey rest k

/-- Python dict assignment `d[k] = v`: replace the value at an existing key in
place, otherwise append the new pair at the end. -/
def setKey {V : Type} : Kwargs V → String → V → Kwargs V
  | [], k, v => [(k, v)]
  | (k₁, v₁) :: rest, k, v =>
      if k₁ = k then (k, v) :: rest else (k₁, v₁) :: setKey rest k v

/-- Python `d.update(args)` as used in `route_kwargs.update(dict(args._get_kwargs()))`:
assign every pair of `args` into `d` in order. -/
def dictUpdate {V : Type} (d args : Kwargs V) : Kwargs V :=
  args.foldl (fun acc p => setKey acc p.1 p.2) d

/-- The incoming HTTP request; this layer only reads `request.method`
(upper-case verb as delivered by Werkzeug), everything else is opaque to it. -/
structure Request where
  method : String
deriving DecidableEq, Repr

/-- Python `str.lower()` as applied to HTTP verb strings (ASCII): lower-case
every character. -/
def lowerStr (s : String) : String :=
  String.mk (s.data.map Char.toLower)

/-- Python `str.startswith(p)`: `p`'s characters are a prefix of `s`'s. -/
def strStartsWith (s p : String) : Bool :=
  p.data.isPrefixOf s.data

/-- Result of a dispatcher or handler call: either a value returned to the
framework, or an `flask.abort(code)` call (which raises an `HTTPException`
that the framework turns into a response with that status code). -/
inductive HResult (P : Type) where
  | ok (r : P)
  | abort (code : Nat)
deriving DecidableEq, Repr

/-- A method handler (`get`, `post`, ...): a classmethod taking the four
positional arguments app, request, session, route_kwargs. -/
abbrev Handler (A S V P : Type) : Type := A → Request → S → Kwargs V → HResult P

/-- A route class of `BaseRouteMixin` as the dispatcher sees it: the map from
attribute names to the method handlers the class defines (`hasattr`/`getattr`
on the lower-cased method name). -/
structure RouteClass (A S V P : Type) where
  handlers : String → Option (Handler A S V P)

/-- `BaseRouteMixin.handle_request`: look up the handler attribute named after
the lower-cased request method; abort 405 when the class has no such
attribute, otherwise call it with app, request, session and the URL-derived
keyword arguments, returning its result unchanged. -/
def handle_request {A S V P : Type} (cls : RouteClass A S V P)
    (app : A) (request : Request) (session : S) (routeKwargs : Kwargs V) :
    HResult P :=
  match cls.handlers (lowerStr request.method) with
  | none => .abort 405
  | some h => h app request session routeKwargs

/-- The handler attributes `BaseRouteMixin` itself defines: `get`, `post`,
`put` and `delete`, each of which just calls `flask.abort(405)`. -/
def defaultHandlers {A S V P : Type} : String → Option (Handler A S V P)
  | "get" => some fun _ _ _ _ => .abort 405
  | "post" => some fun _ _ _ _ => .abort 405
  | "put" => some fun _ _ _ _ => .abort 405
  | "delete" => some fun _ _ _ _ => .abort 405
  | _ => none

/-- A subclass of `BaseRouteMixin`: Python attribute resolution tries the
subclass body first and falls back to the attributes of `BaseRouteMixin`. -/
def mkRouteClass {A S V P : Type}
    (overrides : String → Option (Handler A S V P)) : RouteClass A S V P :=
  ⟨fun name => (overrides name).orElse fun _ => defaultHandlers name⟩

/-! ## Route registration (`BaseRouteMixin.register_route`) -/

/-- An options record of `ROUTE_MAP`, keyed by strings; the registrar only
inspects the key set (for the reserved `"view_func"` key) and otherwise hands
the record to Flask verbatim, so we keep the keys and leave values opaque. -/
abbrev RouteOptions : Type := List String

/-- State touched by `register_route`: the app routing table built by
`flask.Flask.add_url_rule` (each successful call records the rule and its
options, with `cls.handle_request` as view function), and the records emitted
by `logger.warning`. -/
structure RegState where
  rules : List (String × RouteOptions)
  warnings : List String
deriving DecidableEq, Repr

/-- The text `logger.warning` receives:
`"Failed to register handler for route {} ({})".format(route, exc)`. -/
def warnMsg (route cause : String) : String :=
  "Failed to register handler for route " ++ route ++ " (" ++ cause ++ ")"

/-- Message of the `KeyError` raised by the reserved-key guard. -/
def viewFuncErrMsg : String :=
  "route options cannot contain view_func key"

/-- The body of the per-route `try`/`except` in `register_route`: raise
`KeyError` when the options contain `"view_func"`, otherwise call
`app.add_url_rule` (modelled by the `addRule` parameter, which may itself
fail); every exception is caught and logged as a warning naming the route and
the cause, so the per-entry step is a total state transformer. -/
def registerEntry (addRule : String → RouteOptions → Except String Unit)
    (st : RegState) (route : String) (opts : RouteOptions) : RegState :=
  if "view_func" ∈ opts then
    { st with warnings := st.warnings ++ [warnMsg route viewFuncErrMsg] }
  else
    match addRule route opts with
    | .ok _ => { st with rules := st.rules ++ [(route, opts)] }
    | .error e => { st with warnings := st.warnings ++ [warnMsg route e] }

/-- `BaseRouteMixin.register_route`: when `cls.ROUTE_MAP` is truthy (neither
`None` nor empty), run the guarded registration step on each entry in order. -/
def register_route (addRule : String → RouteOptions → Except String Unit)
    (routeMap : Option (List (String × RouteOptions))) (st : RegState) :
    RegState :=
  match routeMap with
  | none => st
  | some entries =>
    if entries.isEmpty then st
    else entries.foldl (fun acc e => registerEntry addRule acc e.1 e.2) st

/-! ## Parser mixin (`BaseRouteWithParserMixin`) -/

/-- One element of the `args` tuple of a raised `RuntimeError`, as far as the
dispatcher inspects it: a string, or any non-string Python value. -/
inductive ExcArg where
  | str (s : String)
  | nonStr
deriving DecidableEq, Repr

/-- Outcome of `parser.parse_args()`: the parsed argument namespace (as the
key-value list `args._get_kwargs()` yields), a `TypeError` (invalid mimetype
for a POST/PUT body), or a `RuntimeError` carrying its `args` tuple. -/
inductive ParseOutcome (V : Type) where
  | ok (args : Kwargs V)
  | typeError
  | runtimeError (excArgs : List ExcArg)
deriving DecidableEq, Repr

/-- A configured `RequestParser`, reduced to the one operation this layer
uses: parsing the current request. -/
abbrev ReqParser (V : Type) : Type := Request → ParseOutcome V

/-- A route class of `BaseRouteWithParserMixin`: the handler attributes plus
the `gen_request_parser` hook, whose default implementation returns `None`. -/
structure ParserRouteClass (A S V P : Type) extends RouteClass A S V P where
  genRequestParserFn : Option (ReqParser V)

/-- The guard of the 400 branch: `exc.args` is non-empty, its first element is
a string, and that string starts with `"Failed to parse provided arguments"`. -/
def isValidationError (excArgs : List ExcArg) : Bool :=
  match excArgs with
  | .str s :: _ => strStartsWith s "Failed to parse provided arguments"
  | _ => false

/-- Result of `BaseRouteWithParserMixin.handle_request`: a dispatcher result
(possibly an abort), or the re-raised `RuntimeError` propagating out. -/
inductive PResult (P : Type) where
  | res (r : HResult P)
  | reraised (excArgs : List ExcArg)
deriving DecidableEq, Repr

/-- `BaseRouteWithParserMixin.handle_request`: when `gen_request_parser`
produces a parser and the request method is GET, POST or PUT, parse the
request first — a `TypeError` aborts with 415, a `RuntimeError` whose message
matches the validation prefix aborts with 400 while any other `RuntimeError`
is re-raised, and a successful parse merges the parsed key-value pairs over
`route_kwargs`; then (and in every non-parsing case with `route_kwargs`
untouched) delegate to `BaseRouteMixin.handle_request`. -/
def handleRequestWP {A S V P : Type} (cls : ParserRouteClass A S V P)
    (app : A) (request : Request) (session : S) (routeKwargs : Kwargs V) :
    PResult P :=
  match cls.genRequestParserFn with
  | none => .res (handle_request cls.toRouteClass app request session routeKwargs)
  | some parseArgs =>
    if request.method = "GET" ∨ request.method = "POST" ∨ request.method = "PUT" then
      match parseArgs request with
      | .typeError => .res (.abort 415)
      | .runtimeError excArgs =>
        if isValidationError excArgs then .res (.abort 400)
        else .reraised excArgs
      | .ok args =>
        .res (handle_request cls.toRouteClass app request session
          (dictUpdate routeKwargs args))
    else .res (handle_request cls.toRouteClass app request session routeKwargs)

/-! ## Concrete instances used to evaluate the model

These mirror the route classes of the module's self-test harness
(`IndexRoute`, `InvalidRoute`, `WithParserWithVRRoute`, ...): handlers that
echo their `route_kwargs`, a class overriding a non-default verb, and parser
hooks exercising each parse outcome. -/

/-- A handler that returns its `route_kwargs` (like the test routes returning
`(route_kwargs, 200)`), so dispatch results expose the mapping they received. -/
def kwEchoHandler : Handler Unit Unit Nat (Kwargs Nat) :=
  fun _ _ _ kw => .ok kw

/-- A route class defining only a `get` handler, like `NoParserNoVRRoute`. -/
def kwEchoClass : RouteClass Unit Unit Nat (Kwargs Nat) :=
  mkRouteClass fun name => if name = "get" then some kwEchoHandler else none

/-- Subclass attribute table defining a handler for the non-default verb
`PATCH`. -/
def patchOverrides : String → Option (Handler Unit Unit Nat (Kwargs Nat)) :=
  fun name => if name = "patch" then some kwEchoHandler else none

/-- A parser-equipped class whose parser always succeeds with
`team_name` and `alias` arguments, like `WithParserWithVRRoute` handling
`/team/<team_name>?team_name=...`. -/
def mergeCls : ParserRouteClass Unit Unit Nat (Kwargs Nat) where
  handlers := fun name => if name = "get" then some kwEchoHandler else none
  genRequestParserFn := some fun _ => .ok [("team_name", 2), ("alias", 0)]

/-- A parser-equipped class whose parser raises `TypeError` (invalid mimetype
for the request body). -/
def typeErrCls : ParserRouteClass Unit Unit Nat (Kwargs Nat) where
  handlers := fun name => if name = "get" then some kwEchoHandler else none
  genRequestParserFn := some fun _ => .typeError

/-- The message produced by `RequestParser.error` on validation failure. -/
def valMsg : String := "Failed to parse provided arguments"

/-- A parser-equipped class whose parser raises `RuntimeError` with the
validation-failure message. -/
def valErrCls : ParserRouteClass Unit Unit Nat (Kwargs Nat) where
  handlers := fun name => if name = "get" then some kwEchoHandler else none
  genRequestParserFn := some fun _ => .runtimeError [.str valMsg]

/-- A parser-equipped class whose parser raises `RuntimeError` with a
non-string first argument (e.g. invoked outside a request context). -/
def ctxErrCls : ParserRouteClass Unit Unit Nat (Kwargs Nat) where
  handlers := fun name => if name = "get" then some kwEchoHandler else none
  genRequestParserFn := some fun _ => .runtimeError [.nonStr]

/-! ## Lemmas about dict assignment and update -/

theorem lookupKey_setKey_self {V : Type} (d : Kwargs V) (k : String) (v : V) :
    lookupKey (setKey d k v) k = some v := by
  induction d with
  | nil => simp [setKey, lookupKey]
  | cons p rest ih =>
    obtain ⟨k₁, v₁⟩ := p
    by_cases h : k₁ = k
    · simp [setKey, h, lookupKey]
    · simp [setKey, h, lookupKey, ih]

theorem lookupKey_setKey_other {V : Type} (d : Kwargs V) (k k' : String) (v : V)
    (h : k' ≠ k) : lookupKey (setKey d k v) k' = lookupKey d k' := by
  induction d with
  | nil => simp [setKey, lookupKey, Ne.symm h]
  | cons p rest ih =>
    obtain ⟨k₁, v₁⟩ := p
    by_cases hk : k₁ = k
    · subst hk
      simp [setKey, lookupKey, Ne.symm h]
    · by_cases hk' : k₁ = k'
      · subst hk'
        simp [setKey, hk, lookupKey]
      · simp [setKey, hk, lookupKey, hk', ih]

theorem lookupKey_dictUpdate_not_mem {V : Type} (args d : Kwargs V) (k : String)
    (h : k ∉ args.map Prod.fst) :
    lookupKey (dictUpdate d args) k = lookupKey d k := by
  induction args generalizing d with
  | nil => rfl
  | cons p rest ih =>
    obtain ⟨k₁, v₁⟩ := p
    simp only [List.map_cons, List.mem_cons, not_or] at h
    show lookupKey (dictUpdate (setKey d k₁ v₁) rest) k = lookupKey d k
    rw [ih (setKey d k₁ v₁) h.2, lookupKey_setKey_other d k₁ k v₁ h.1]

theorem lookupKey_dictUpdate_mem {V : Type} (args d : Kwargs V) (k : String) (v : V)
    (hmem : (k, v) ∈ args) (hnd : (args.map Prod.fst).Nodup) :
    lookupKey (dictUpdate d args) k = some v := by
  induction args generalizing d with
  | nil => cases hmem
  | cons p rest ih =>
    obtain ⟨k₁, v₁⟩ := p
    simp only [List.map_cons, List.nodup_cons] at hnd
    rcases List.mem_cons.mp hmem with heq | htail
    · cases heq
      show lookupKey (dictUpdate (setKey d k v) rest) k = some v
      rw [lookupKey_dictUpdate_not_mem rest (setKey d k v) k hnd.1,
        lookupKey_setKey_self]
    · exact ih (setKey d k₁ v₁) htail hnd.2

/-! ## Lemmas about the registration fold -/

/-- Entries without the reserved key that the framework accepts are appended
to the routing table in order and produce no warning. -/
theorem foldl_registerEntry_good (addRule : String → RouteOptions → Except String Unit)
    (l : List (String × RouteOptions)) (st : RegState)
    (h : ∀ e ∈ l, "view_func" ∉ e.2 ∧ addRule e.1 e.2 = .ok ()) :
    l.foldl (fun acc e => registerEntry addRule acc e.1 e.2) st =
      { rules := st.rules ++ l, warnings := st.warnings } := by
  induction l generalizing st with
  | nil => simp
  | cons e rest ih =>
    obtain ⟨hkey, hok⟩ := h e (List.mem_cons_self e rest)
    show rest.foldl (fun acc e => registerEntry addRule acc e.1 e.2)
        (registerEntry addRule st e.1 e.2) = _
    rw [show registerEntry addRule st e.1 e.2 =
        { st with rules := st.rules ++ [(e.1, e.2)] } by
      simp [registerEntry, hkey, hok]]
    rw [ih _ fun e' he' => h e' (List.mem_cons_of_mem e he')]
    simp

/-! ## Claims -/

/-- C10: when `ROUTE_MAP` is `None` or empty, `register_route` is a no-op:
nothing is registered with the app, no log record is emitted, no exception is
raised (the function is total), and the routing table is unchanged. -/
theorem register_route_empty_route_map_noop
    (addRule : String → RouteOptions → Except String Unit) (st : RegState) :
    register_route addRule none st = st ∧ register_route addRule (some []) st = st :=
  ⟨rfl, rfl⟩

/-- C6: an entry whose options record contains the reserved `"view_func"` key
is not registered with the framework; instead the per-entry handling records
the failure as a warning and leaves the routing table untouched. -/
theorem register_entry_view_func_rejected
    (addRule : String → RouteOptions → Except String Unit)
    (st : RegState) (route : String) (opts : RouteOptions)
    (h : "view_func" ∈ opts) :
    registerEntry addRule st route opts =
      { st with warnings := st.warnings ++ [warnMsg route viewFuncErrMsg] } := by
  simp [registerEntry, h]

theorem register_entry_view_func_rejected_witness :
    registerEntry (fun _ _ => Except.ok ()) ⟨[], []⟩ "/invalid"
        ["endpoint", "methods", "view_func"] =
      ⟨[], [warnMsg "/invalid" viewFuncErrMsg]⟩ := by
  simpa using register_entry_view_func_rejected (fun _ _ => Except.ok ())
    ⟨[], []⟩ "/invalid" ["endpoint", "methods", "view_func"] (by simp)

/-- C3: registration failures are isolated per entry. For a table split as
`pre ++ (route, opts) :: post` where `opts` violates the reserved-key rule and
every other entry is accepted by the framework, `register_route` returns
normally (no exception propagates), registers exactly the other entries in
order, and emits exactly one warning naming the failing route and the cause. -/
theorem register_route_isolates_failures
    (addRule : String → RouteOptions → Except String Unit)
    (pre post : List (String × RouteOptions)) (route : String)
    (opts : RouteOptions) (st : RegState) (cause : String)
    (hbad : ("view_func" ∈ opts ∧ cause = viewFuncErrMsg) ∨
      ("view_func" ∉ opts ∧ addRule route opts = .error cause))
    (hgood : ∀ e ∈ pre ++ post, "view_func" ∉ e.2 ∧ addRule e.1 e.2 = .ok ()) :
    register_route addRule (some (pre ++ (route, opts) :: post)) st =
      { rules := st.rules ++ (pre ++ post),
        warnings := st.warnings ++ [warnMsg route cause] } := by
  have hpre : ∀ e ∈ pre, "view_func" ∉ e.2 ∧ addRule e.1 e.2 = .ok () :=
    fun e he => hgood e (List.mem_append_left _ he)
  have hpost : ∀ e ∈ post, "view_func" ∉ e.2 ∧ addRule e.1 e.2 = .ok () :=
    fun e he => hgood e (List.mem_append_right _ he)
  show (if (pre ++ (route, opts) :: post).isEmpty then st
    else (pre ++ (route, opts) :: post).foldl
      (fun acc e => registerEntry addRule acc e.1 e.2) st) = _
  rw [if_neg (by simp)]
  rw [List.foldl_append, foldl_registerEntry_good addRule pre st hpre,
    List.foldl_cons]
  rw [show registerEntry addRule { rules := st.rules ++ pre, warnings := st.warnings }
      (route, opts).1 (route, opts).2 =
      { rules := st.rules ++ pre,
        warnings := st.warnings ++ [warnMsg route cause] } by
    rcases hbad with ⟨hk, hc⟩ | ⟨hk, he⟩
    · subst hc; simp [registerEntry, hk]
    · simp [registerEntry, hk, he]]
  rw [foldl_registerEntry_good addRule post _ hpost]
  simp

theorem register_route_isolates_failures_witness :
    register_route (fun _ _ => Except.ok ())
        (some [("/a", ["endpoint"]), ("/invalid", ["view_func"]), ("/b", [])])
        ⟨[], []⟩ =
      ⟨[("/a", ["endpoint"]), ("/b", [])], [warnMsg "/invalid" viewFuncErrMsg]⟩ := by
  have h := register_route_isolates_failures (fun _ _ => Except.ok ())
    [("/a", ["endpoint"])] [("/b", [])] "/invalid" ["view_func"] ⟨[], []⟩
    viewFuncErrMsg (Or.inl ⟨by simp, rfl⟩)
    (by
      intro e he
      refine ⟨?_, rfl⟩
      simp only [List.cons_append, List.nil_append, List.mem_cons,
        List.not_mem_nil, or_false] at he
      rcases he with rfl | rfl <;> simp)
  simpa using h

/-- C2: when the route class has no attribute named after the lower-cased
request method, `handle_request` aborts with HTTP 405 and invokes no method
handler. -/
theorem dispatch_unknown_method_aborts_405 {A S V P : Type}
    (cls : RouteClass A S V P) (app : A) (request : Request) (session : S)
    (kw : Kwargs V)
    (h : cls.handlers (lowerStr request.method) = none) :
    handle_request cls app request session kw = .abort 405 := by
  simp [handle_request, h]

theorem dispatch_unknown_method_aborts_405_witness :
    handle_request (mkRouteClass (fun _ => none) : RouteClass Unit Unit Nat Nat)
      () ⟨"PATCH"⟩ () [] = .abort 405 :=
  dispatch_unknown_method_aborts_405 (mkRouteClass fun _ => none)
    () ⟨"PATCH"⟩ () [] rfl

/-- C8: when the class defines a handler attribute named after the lower-cased
request method, `handle_request` calls it with exactly the four positional
arguments app, request, session, route_kwargs and returns its result
unchanged. -/
theorem dispatch_invokes_named_handler {A S V P : Type}
    (cls : RouteClass A S V P) (app : A) (request : Request) (session : S)
    (kw : Kwargs V) (h : Handler A S V P)
    (hh : cls.handlers (lowerStr request.method) = some h) :
    handle_request cls app request session kw = h app request session kw := by
  simp [handle_request, hh]

theorem dispatch_invokes_named_handler_witness :
    handle_request kwEchoClass () ⟨"GET"⟩ () [("x", 5)] = .ok [("x", 5)] :=
  (dispatch_invokes_named_handler kwEchoClass () ⟨"GET"⟩ () [("x", 5)]
    kwEchoHandler rfl).trans rfl

/-- C9: the default `get`, `post`, `put` and `delete` handlers inherited from
`BaseRouteMixin` each abort with HTTP 405 when dispatched to, and a subclass
handler defined for any other verb is found by the dispatcher under the
lower-cased method name and invoked. -/
theorem default_handlers_405_and_subclass_lookup {A S V P : Type}
    (overrides : String → Option (Handler A S V P)) (f : Handler A S V P)
    (app : A) (req₁ req₂ : Request) (session : S) (kw : Kwargs V) :
    (req₁.method = "GET" ∨ req₁.method = "POST" ∨ req₁.method = "PUT" ∨
        req₁.method = "DELETE" →
      handle_request (mkRouteClass (fun _ => none) : RouteClass A S V P)
          app req₁ session kw = .abort 405) ∧
    (overrides (lowerStr req₂.method) = some f →
      handle_request (mkRouteClass overrides) app req₂ session kw =
        f app req₂ session kw) := by
  constructor
  · intro hm
    rcases hm with hm | hm | hm | hm
    · have ht : lowerStr req₁.method = "get" := by rw [hm]; decide
      simp [handle_request, mkRouteClass, ht, defaultHandlers, Option.orElse]
    · have ht : lowerStr req₁.method = "post" := by rw [hm]; decide
      simp [handle_request, mkRouteClass, ht, defaultHandlers, Option.orElse]
    · have ht : lowerStr req₁.method = "put" := by rw [hm]; decide
      simp [handle_request, mkRouteClass, ht, defaultHandlers, Option.orElse]
    · have ht : lowerStr req₁.method = "delete" := by rw [hm]; decide
      simp [handle_request, mkRouteClass, ht, defaultHandlers, Option.orElse]
  · intro ho
    simp [handle_request, mkRouteClass, ho, Option.orElse]

theorem default_handlers_405_and_subclass_lookup_witness :
    handle_request (mkRouteClass (fun _ => none) :
        RouteClass Unit Unit Nat (Kwargs Nat)) () ⟨"DELETE"⟩ () [("x", 5)] =
      HResult.abort 405 ∧
    handle_request (mkRouteClass patchOverrides) () ⟨"PATCH"⟩ () [("x", 5)] =
      HResult.ok [("x", 5)] := by
  have h := default_handlers_405_and_subclass_lookup patchOverrides
    kwEchoHandler () ⟨"DELETE"⟩ ⟨"PATCH"⟩ () [("x", 5)]
  exact ⟨h.1 (Or.inr (Or.inr (Or.inr rfl))), (h.2 rfl).trans rfl⟩

/-- C4: with a parser configured and the method GET, POST or PUT, a parse
failing with `TypeError` (wrong content type for the request body) makes the
dispatcher abort with HTTP 415, dispatching no method handler. -/
theorem parser_type_error_aborts_415 {A S V P : Type}
    (cls : ParserRouteClass A S V P) (app : A) (request : Request)
    (session : S) (kw : Kwargs V) (parseArgs : ReqParser V)
    (hp : cls.genRequestParserFn = some parseArgs)
    (hm : request.method = "GET" ∨ request.method = "POST" ∨
      request.method = "PUT")
    (ht : parseArgs request = .typeError) :
    handleRequestWP cls app request session kw = .res (.abort 415) := by
  simp [handleRequestWP, hp, hm, ht]

theorem parser_type_error_aborts_415_witness :
    handleRequestWP typeErrCls () ⟨"POST"⟩ () [] = .res (.abort 415) :=
  parser_type_error_aborts_415 typeErrCls () ⟨"POST"⟩ () []
    (fun _ => .typeError) rfl (Or.inr (Or.inl rfl)) rfl

/-- C5: with a parser configured and the method GET, POST or PUT, a parse
failing with `RuntimeError` aborts with HTTP 400 exactly when the error's
first argument is a string starting with the recognized prefix; with any
other argument shape the same error is re-raised unchanged instead of being
mapped to a status code. -/
theorem parser_runtime_error_400_or_reraised {A S V P : Type}
    (cls : ParserRouteClass A S V P) (app : A) (request : Request)
    (session : S) (kw : Kwargs V) (parseArgs : ReqParser V)
    (excArgs : List ExcArg)
    (hp : cls.genRequestParserFn = some parseArgs)
    (hm : request.method = "GET" ∨ request.method = "POST" ∨
      request.method = "PUT")
    (hr : parseArgs request = .runtimeError excArgs) :
    (isValidationError excArgs = true →
      handleRequestWP cls app request session kw = .res (.abort 400)) ∧
    (isValidationError excArgs = false →
      handleRequestWP cls app request session kw = .reraised excArgs) := by
  constructor <;> intro hv <;> simp [handleRequestWP, hp, hm, hr, hv]

theorem parser_runtime_error_400_or_reraised_witness :
    handleRequestWP valErrCls () ⟨"GET"⟩ () [] = .res (.abort 400) ∧
    handleRequestWP ctxErrCls () ⟨"GET"⟩ () [] = .reraised [.nonStr] :=
  ⟨(parser_runtime_error_400_or_reraised valErrCls () ⟨"GET"⟩ () []
      (fun _ => .runtimeError [.str valMsg]) [.str valMsg] rfl (Or.inl rfl)
      rfl).1 (by decide),
   (parser_runtime_error_400_or_reraised ctxErrCls () ⟨"GET"⟩ () []
      (fun _ => .runtimeError [.nonStr]) [.nonStr] rfl (Or.inl rfl)
      rfl).2 rfl⟩

/-- C7: when the parser hook yields no parser, or the request method is not
GET, POST or PUT, the parser-equipped dispatcher passes `route_kwargs` through
unmodified and produces exactly the plain dispatcher's result. -/
theorem parser_passthrough_matches_base {A S V P : Type}
    (cls : ParserRouteClass A S V P) (app : A) (request : Request)
    (session : S) (kw : Kwargs V)
    (h : cls.genRequestParserFn = none ∨
      ¬(request.method = "GET" ∨ request.method = "POST" ∨
        request.method = "PUT")) :
    handleRequestWP cls app request session kw =
      .res (handle_request cls.toRouteClass app request session kw) := by
  rcases h with h | h
  · simp [handleRequestWP, h]
  · cases hp : cls.genRequestParserFn with
    | none => simp [handleRequestWP, hp]
    | some parseArgs => simp [handleRequestWP, hp, h]

theorem parser_passthrough_matches_base_witness :
    handleRequestWP mergeCls () ⟨"DELETE"⟩ () [("a", 3)] =
      .res (.abort 405) :=
  (parser_passthrough_matches_base mergeCls () ⟨"DELETE"⟩ () [("a", 3)]
    (Or.inr (by decide))).trans rfl

/-- C1: with a parser configured, a method among GET, POST and PUT, and a
successful parse, the dispatcher delegates to the plain dispatcher with the
parsed pairs merged into the URL-derived `route_kwargs`, and in the merged
mapping every parsed key is bound to its parsed value — in particular a key
present in both mappings carries the parsed value, not the URL-derived one. -/
theorem parser_merge_overrides_url_kwargs {A S V P : Type}
    (cls : ParserRouteClass A S V P) (app : A) (request : Request)
    (session : S) (kw : Kwargs V) (parseArgs : ReqParser V) (args : Kwargs V)
    (hp : cls.genRequestParserFn = some parseArgs)
    (hm : request.method = "GET" ∨ request.method = "POST" ∨
      request.method = "PUT")
    (hok : parseArgs request = .ok args)
    (hnd : (args.map Prod.fst).Nodup) :
    handleRequestWP cls app request session kw =
      .res (handle_request cls.toRouteClass app request session
        (dictUpdate kw args)) ∧
    ∀ k v, (k, v) ∈ args → lookupKey (dictUpdate kw args) k = some v := by
  refine ⟨by simp [handleRequestWP, hp, hm, hok], ?_⟩
  intro k v hkv
  exact lookupKey_dictUpdate_mem args kw k v hkv hnd

theorem parser_merge_overrides_url_kwargs_witness :
    handleRequestWP mergeCls () ⟨"GET"⟩ () [("team_name", 1)] =
      .res (.ok [("team_name", 2), ("alias", 0)]) ∧
    lookupKey (dictUpdate [("team_name", 1)] [("team_name", 2), ("alias", 0)])
      "team_name" = some 2 := by
  have h := parser_merge_overrides_url_kwargs mergeCls () ⟨"GET"⟩ ()
    [("team_name", 1)] (fun _ => .ok [("team_name", 2), ("alias", 0)])
    [("team_name", 2), ("alias", 0)] rfl (Or.inl rfl) rfl (by decide)
  exact ⟨h.1.trans (by decide), h.2 "team_name" 2 (by decide)⟩

end FlaskRoutes
